import Mathlib

/-!
# GD25LQ255E flash driver: protection and translation layer

A shallow embedding of `src/fw/drivers/flash/gd25lq255e.c`.

* The three file-scope statics `s_protected`, `s_protected_start`,
  `s_protected_end` become fields of `FlashState`.
* `FlashAddress` is `uint32_t`.  The driver only compares addresses and masks
  them with `&`; neither can overflow, so addresses are natural numbers and
  every statement below holds in particular for values below `2 ^ 32`.
* The QSPI execution engine is not part of the driver.  Every call the driver
  makes on it is appended to `FlashState.calls`, and the value the engine gives
  back is supplied by a parameter of type `Engine`.
* `PBL_ASSERT` stops execution when its condition is false; the driver
  functions that assert return an `Outcome`.
-/

namespace GD25LQ255E

/-- Type `status_t` of `system/status_codes.h`, a signed 32-bit integer. -/
abbrev status_t := Int

/-- Modelled from the spec: `system/status_codes.h` is not among the sources.
The spec names the result codes success / generic error / invalid-operation /
busy; this is the success code.  Only `0 ≤ S_SUCCESS` is used. -/
def S_SUCCESS : status_t := 0

/-- Modelled from the spec: `system/status_codes.h` is not among the sources.
The generic failure code.  Only `E_ERROR < 0` and
`E_ERROR ≠ E_INVALID_OPERATION` are used. -/
def E_ERROR : status_t := -1

/-- Modelled from the spec: `system/status_codes.h` is not among the sources.
The invalid-operation code.  Only `E_INVALID_OPERATION < 0` and
`E_ERROR ≠ E_INVALID_OPERATION` are used. -/
def E_INVALID_OPERATION : status_t := -10

/-- Modelled from the spec: the `FAILED(s)` test of `system/status_codes.h` is
not among the sources; a status is a failure when it is negative. -/
def FAILED (s : status_t) : Bool := decide (s < 0)

/-- Calls the driver makes on the QSPI execution engine (`qspi_flash_*`), with
the arguments the driver passes.  Pointers are kept as plain numbers. -/
inductive EngineCall where
  | check_whoami
  | init (coredump_mode : Bool)
  | is_erase_complete
  | erase_begin (addr : Nat) (is_subsector : Bool)
  | erase_suspend (addr : Nat)
  | erase_resume (addr : Nat)
  | read_blocking (addr : Nat) (buffer : Nat) (length : Nat)
  | write_page_begin (buffer : Nat) (addr : Nat) (length : Nat)
  | get_write_status
  | set_lower_power_mode (active : Bool)
  | blank_check (addr : Nat) (is_subsector : Bool)
  | read_security_register (addr : Nat) (val : Nat)
  | security_registers_are_locked (locked : Nat)
  | erase_security_register (addr : Nat)
  | write_security_register (addr : Nat) (val : Nat)
  | security_registers_info
  | lock_security_registers
  deriving DecidableEq, Repr

/-- Modelled from the spec: the QSPI execution engine (`qspi_flash.c`) is not
among the sources.  An engine gives the value a call returns from the calls
made before it; for calls that return nothing the value is ignored. -/
abbrev Engine := List EngineCall → EngineCall → Int

/-- The driver's file-scope statics together with the log of engine calls. -/
structure FlashState where
  s_protected : Bool
  s_protected_start : Nat
  s_protected_end : Nat
  calls : List EngineCall
  deriving DecidableEq, Repr

/-- State at start-up: C zero-initialises the statics, no engine call made. -/
def FlashState.initial : FlashState :=
  { s_protected := false, s_protected_start := 0, s_protected_end := 0, calls := [] }

/-- One call on the engine: log it and take the engine's return value. -/
def FlashState.call (eng : Engine) (s : FlashState) (c : EngineCall) : Int × FlashState :=
  (eng s.calls c, { s with calls := s.calls ++ [c] })

/-- Modelled from the spec: `PBL_ASSERT` of `system/passert.h` is not among the
sources; a zero-length read is "asserted rather than recovered" and "rejected
before any bus activity", so a failed assertion ends the call on the spot.  A
driver function that asserts either returns `ret` in state `s`, or its
assertion fails in state `s`. -/
inductive Outcome where
  | returned (ret : status_t) (s : FlashState)
  | assert_failed (s : FlashState)
  deriving DecidableEq, Repr

/-- Lines 84-94. -/
def prv_flash_check_protected (s : FlashState) (addr : Nat) : status_t :=
  if !s.s_protected then
    S_SUCCESS
  else if addr < s.s_protected_start || addr > s.s_protected_end then
    S_SUCCESS
  else
    E_INVALID_OPERATION

/-- Line 96; the engine's `bool` is nonzero for true. -/
def flash_check_whoami (eng : Engine) (s : FlashState) : Bool × FlashState :=
  let r := s.call eng .check_whoami
  (r.1 != 0, r.2)

/-- Lines 98-100; `SECTOR_ADDR_MASK` comes from headers that are not among the
sources and is taken as a parameter: its value as converted to `uint32_t` by
the `&` with a `FlashAddress`. -/
def flash_impl_get_sector_base_address (SECTOR_ADDR_MASK : Nat) (addr : Nat) : Nat :=
  addr &&& SECTOR_ADDR_MASK

/-- Lines 102-104; `SUBSECTOR_ADDR_MASK` is taken as a parameter in the same
way as `SECTOR_ADDR_MASK`. -/
def flash_impl_get_subsector_base_address (SUBSECTOR_ADDR_MASK : Nat) (addr : Nat) : Nat :=
  addr &&& SUBSECTOR_ADDR_MASK

/-- Line 106. -/
def flash_impl_enable_write_protection (s : FlashState) : FlashState := s

/-- Lines 108-118. -/
def flash_impl_write_protect (s : FlashState) (start_sector end_sector : Nat) :
    status_t × FlashState :=
  if s.s_protected then
    (E_ERROR, s)
  else
    (S_SUCCESS,
      { s with s_protected_start := start_sector, s_protected_end := end_sector,
               s_protected := true })

/-- Lines 120-128. -/
def flash_impl_unprotect (s : FlashState) : status_t × FlashState :=
  if !s.s_protected then
    (E_ERROR, s)
  else
    (S_SUCCESS, { s with s_protected := false })

/-- Lines 130-133. -/
def flash_impl_init (eng : Engine) (s : FlashState) (coredump_mode : Bool) :
    status_t × FlashState :=
  (S_SUCCESS, (s.call eng (.init coredump_mode)).2)

/-- Line 135. -/
def flash_impl_get_erase_status (eng : Engine) (s : FlashState) : status_t × FlashState :=
  s.call eng .is_erase_complete

/-- Lines 137-146. -/
def flash_impl_erase_subsector_begin (eng : Engine) (s : FlashState) (subsector_addr : Nat) :
    status_t × FlashState :=
  let status := prv_flash_check_protected s subsector_addr
  if FAILED status then
    (status, s)
  else
    s.call eng (.erase_begin subsector_addr true)

/-- Lines 147-156. -/
def flash_impl_erase_sector_begin (eng : Engine) (s : FlashState) (sector_addr : Nat) :
    status_t × FlashState :=
  let status := prv_flash_check_protected s sector_addr
  if FAILED status then
    (status, s)
  else
    s.call eng (.erase_begin sector_addr false)

/-- Lines 158-160. -/
def flash_impl_erase_suspend (eng : Engine) (s : FlashState) (sector_addr : Nat) :
    status_t × FlashState :=
  s.call eng (.erase_suspend sector_addr)

/-- Lines 162-165. -/
def flash_impl_erase_resume (eng : Engine) (s : FlashState) (sector_addr : Nat) :
    status_t × FlashState :=
  (S_SUCCESS, (s.call eng (.erase_resume sector_addr)).2)

/-- Lines 167-171. -/
def flash_impl_read_sync (eng : Engine) (s : FlashState) (buffer_ptr start_addr buffer_size : Nat) :
    Outcome :=
  if buffer_size > 0 then
    .returned S_SUCCESS (s.call eng (.read_blocking start_addr buffer_ptr buffer_size)).2
  else
    .assert_failed s

/-- Lines 173-182. -/
def flash_impl_write_page_begin (eng : Engine) (s : FlashState) (buffer start_addr len : Nat) :
    status_t × FlashState :=
  let status := prv_flash_check_protected s start_addr
  if FAILED status then
    (status, s)
  else
    s.call eng (.write_page_begin buffer start_addr len)

/-- Line 184. -/
def flash_impl_get_write_status (eng : Engine) (s : FlashState) : status_t × FlashState :=
  s.call eng .get_write_status

/-- Lines 186-189. -/
def flash_impl_enter_low_power_mode (eng : Engine) (s : FlashState) : status_t × FlashState :=
  (S_SUCCESS, (s.call eng (.set_lower_power_mode true)).2)

/-- Lines 190-193. -/
def flash_impl_exit_low_power_mode (eng : Engine) (s : FlashState) : status_t × FlashState :=
  (S_SUCCESS, (s.call eng (.set_lower_power_mode false)).2)

/-- Lines 195-198. -/
def flash_impl_set_burst_mode (s : FlashState) (_burst_mode : Bool) : status_t × FlashState :=
  (S_SUCCESS, s)

/-- Lines 200-202. -/
def flash_impl_blank_check_sector (eng : Engine) (s : FlashState) (addr : Nat) :
    status_t × FlashState :=
  s.call eng (.blank_check addr false)

/-- Lines 203-205. -/
def flash_impl_blank_check_subsector (eng : Engine) (s : FlashState) (addr : Nat) :
    status_t × FlashState :=
  s.call eng (.blank_check addr true)

/-- Line 207. -/
def flash_impl_get_typical_sector_erase_duration_ms : Nat := 150

/-- Line 209. -/
def flash_impl_get_typical_subsector_erase_duration_ms : Nat := 50

/-- Lines 211-213. -/
def flash_impl_read_security_register (eng : Engine) (s : FlashState) (addr val : Nat) :
    status_t × FlashState :=
  s.call eng (.read_security_register addr val)

/-- Lines 215-217. -/
def flash_impl_security_registers_are_locked (eng : Engine) (s : FlashState) (locked : Nat) :
    status_t × FlashState :=
  s.call eng (.security_registers_are_locked locked)

/-- Lines 219-221. -/
def flash_impl_erase_security_register (eng : Engine) (s : FlashState) (addr : Nat) :
    status_t × FlashState :=
  s.call eng (.erase_security_register addr)

/-- Lines 223-225. -/
def flash_impl_write_security_register (eng : Engine) (s : FlashState) (addr val : Nat) :
    status_t × FlashState :=
  s.call eng (.write_security_register addr val)

/-- Lines 227-229; the returned pointer is kept as a number. -/
def flash_impl_security_registers_info (eng : Engine) (s : FlashState) : Int × FlashState :=
  s.call eng .security_registers_info

/-- Lines 231-235 (present in recovery firmware builds). -/
def flash_impl_lock_security_registers (eng : Engine) (s : FlashState) : status_t × FlashState :=
  s.call eng .lock_security_registers

/-- One invocation of a function the driver exports, with its arguments. -/
inductive Op where
  | check_whoami
  | get_sector_base_address (addr : Nat)
  | get_subsector_base_address (addr : Nat)
  | enable_write_protection
  | write_protect (start_sector end_sector : Nat)
  | unprotect
  | init (coredump_mode : Bool)
  | get_erase_status
  | erase_subsector_begin (subsector_addr : Nat)
  | erase_sector_begin (sector_addr : Nat)
  | erase_suspend (sector_addr : Nat)
  | erase_resume (sector_addr : Nat)
  | read_sync (buffer_ptr start_addr buffer_size : Nat)
  | write_page_begin (buffer start_addr len : Nat)
  | get_write_status
  | enter_low_power_mode
  | exit_low_power_mode
  | set_burst_mode (burst_mode : Bool)
  | blank_check_sector (addr : Nat)
  | blank_check_subsector (addr : Nat)
  | get_typical_sector_erase_duration_ms
  | get_typical_subsector_erase_duration_ms
  | read_security_register (addr val : Nat)
  | security_registers_are_locked (locked : Nat)
  | erase_security_register (addr : Nat)
  | write_security_register (addr val : Nat)
  | security_registers_info
  | lock_security_registers
  deriving DecidableEq, Repr

/-- State after one driver operation; `none` when an assertion stops execution. -/
def step (eng : Engine) (s : FlashState) : Op → Option FlashState
  | .check_whoami => some (flash_check_whoami eng s).2
  | .get_sector_base_address _ => some s
  | .get_subsector_base_address _ => some s
  | .enable_write_protection => some (flash_impl_enable_write_protection s)
  | .write_protect a b => some (flash_impl_write_protect s a b).2
  | .unprotect => some (flash_impl_unprotect s).2
  | .init m => some (flash_impl_init eng s m).2
  | .get_erase_status => some (flash_impl_get_erase_status eng s).2
  | .erase_subsector_begin a => some (flash_impl_erase_subsector_begin eng s a).2
  | .erase_sector_begin a => some (flash_impl_erase_sector_begin eng s a).2
  | .erase_suspend a => some (flash_impl_erase_suspend eng s a).2
  | .erase_resume a => some (flash_impl_erase_resume eng s a).2
  | .read_sync b a n =>
      match flash_impl_read_sync eng s b a n with
      | .returned _ s' => some s'
      | .assert_failed _ => none
  | .write_page_begin b a n => some (flash_impl_write_page_begin eng s b a n).2
  | .get_write_status => some (flash_impl_get_write_status eng s).2
  | .enter_low_power_mode => some (flash_impl_enter_low_power_mode eng s).2
  | .exit_low_power_mode => some (flash_impl_exit_low_power_mode eng s).2
  | .set_burst_mode m => some (flash_impl_set_burst_mode s m).2
  | .blank_check_sector a => some (flash_impl_blank_check_sector eng s a).2
  | .blank_check_subsector a => some (flash_impl_blank_check_subsector eng s a).2
  | .get_typical_sector_erase_duration_ms => some s
  | .get_typical_subsector_erase_duration_ms => some s
  | .read_security_register a v => some (flash_impl_read_security_register eng s a v).2
  | .security_registers_are_locked l =>
      some (flash_impl_security_registers_are_locked eng s l).2
  | .erase_security_register a => some (flash_impl_erase_security_register eng s a).2
  | .write_security_register a v => some (flash_impl_write_security_register eng s a v).2
  | .security_registers_info => some (flash_impl_security_registers_info eng s).2
  | .lock_security_registers => some (flash_impl_lock_security_registers eng s).2

/-- State after a sequence of driver operations, run in order. -/
def run (eng : Engine) (s : FlashState) : List Op → Option FlashState
  | [] => some s
  | op :: ops =>
      match step eng s op with
      | some s' => run eng s' ops
      | none => none

/-- A state is reachable when some sequence of operations leads to it from the
start-up state. -/
def Reachable (eng : Engine) (s : FlashState) : Prop :=
  ∃ ops : List Op, run eng FlashState.initial ops = some s

/-- A `write_protect` operation is well ranged when its start is not above its
end; every other operation is. -/
def Op.wellRanged : Op → Bool
  | .write_protect a b => decide (a ≤ b)
  | _ => true

/-- An engine that answers every call with success. -/
def idleEngine : Engine := fun _ _ => 0

/-- A state in which the range 0x1000..0x1FFF is protected. -/
def protected_1000_1FFF : FlashState :=
  { s_protected := true, s_protected_start := 0x1000, s_protected_end := 0x1FFF, calls := [] }

/-- The state left by `flash_impl_write_protect 5 3` at start-up. -/
def protected_5_3 : FlashState :=
  { s_protected := true, s_protected_start := 5, s_protected_end := 3, calls := [] }

/-- A sample sequence: protect 0x1000..0x1FFF, read four bytes inside the
range, begin a sector erase outside it. -/
def protect_read_erase : List Op :=
  [Op.write_protect 0x1000 0x1FFF, Op.read_sync 0 0x1500 4, Op.erase_sector_begin 0x3000]

/-- The state `protect_read_erase` leads to from start-up. -/
def after_protect_read_erase : FlashState :=
  { s_protected := true, s_protected_start := 0x1000, s_protected_end := 0x1FFF,
    calls := [.read_blocking 0x1500 0 4, .erase_begin 0x3000 false] }

/-- Protection invariant of the spec: an active range has start at most end. -/
def RangeOrdered (s : FlashState) : Prop :=
  s.s_protected = true → s.s_protected_start ≤ s.s_protected_end

/-! ## Helper lemmas -/

theorem call_snd_protected (eng : Engine) (s : FlashState) (c : EngineCall) :
    (s.call eng c).2.s_protected = s.s_protected ∧
    (s.call eng c).2.s_protected_start = s.s_protected_start ∧
    (s.call eng c).2.s_protected_end = s.s_protected_end := by
  simp [FlashState.call]

theorem check_protected_inside (s : FlashState) (addr : Nat)
    (hp : s.s_protected = true) (hlo : s.s_protected_start ≤ addr)
    (hhi : addr ≤ s.s_protected_end) :
    prv_flash_check_protected s addr = E_INVALID_OPERATION := by
  unfold prv_flash_check_protected
  have h1 : ¬ addr < s.s_protected_start := by omega
  have h2 : ¬ addr > s.s_protected_end := by omega
  simp [hp, h1, h2]

theorem check_protected_outside (s : FlashState) (addr : Nat)
    (h : s.s_protected = false ∨ addr < s.s_protected_start ∨ addr > s.s_protected_end) :
    prv_flash_check_protected s addr = S_SUCCESS := by
  unfold prv_flash_check_protected
  rcases h with h | h | h
  · simp [h]
  · simp [h]
  · by_cases hp : s.s_protected = true
    · simp [hp, h]
    · simp [hp]

theorem failed_invalid_operation : FAILED E_INVALID_OPERATION = true := by decide

theorem failed_error : FAILED E_ERROR = true := by decide

theorem not_failed_success : FAILED S_SUCCESS = false := by decide

/-! ## Claims -/

/-- C1: starting from an unprotected state, `flash_impl_write_protect start end`
succeeds, and afterwards `prv_flash_check_protected a` returns `S_SUCCESS` when
`a < start` or `a > end` and returns `E_INVALID_OPERATION` when
`start ≤ a ≤ end`. -/
theorem C1_check_after_write_protect (s : FlashState) (start_sector end_sector a : Nat)
    (h : s.s_protected = false) :
    (flash_impl_write_protect s start_sector end_sector).1 = S_SUCCESS ∧
    ((a < start_sector ∨ a > end_sector) →
      prv_flash_check_protected (flash_impl_write_protect s start_sector end_sector).2 a
        = S_SUCCESS) ∧
    ((start_sector ≤ a ∧ a ≤ end_sector) →
      prv_flash_check_protected (flash_impl_write_protect s start_sector end_sector).2 a
        = E_INVALID_OPERATION) := by
  have hw : flash_impl_write_protect s start_sector end_sector =
      (S_SUCCESS, { s with s_protected_start := start_sector, s_protected_end := end_sector,
                           s_protected := true }) := by
    simp [flash_impl_write_protect, h]
  rw [hw]
  refine ⟨rfl, ?_, ?_⟩
  · intro ha
    apply check_protected_outside
    rcases ha with ha | ha
    · exact Or.inr (Or.inl ha)
    · exact Or.inr (Or.inr ha)
  · rintro ⟨h1, h2⟩
    exact check_protected_inside _ _ rfl h1 h2

/-- Witness for C1 at the start-up state with the range 0x1000..0x1FFF: the
address 0x1500 is refused and the address 0x3000 is allowed. -/
theorem C1_check_after_write_protect_witness :
    FlashState.initial.s_protected = false ∧
    (flash_impl_write_protect FlashState.initial 0x1000 0x1FFF).1 = S_SUCCESS ∧
    prv_flash_check_protected
      (flash_impl_write_protect FlashState.initial 0x1000 0x1FFF).2 0x1500
      = E_INVALID_OPERATION ∧
    prv_flash_check_protected
      (flash_impl_write_protect FlashState.initial 0x1000 0x1FFF).2 0x3000
      = S_SUCCESS :=
  ⟨rfl,
   (C1_check_after_write_protect FlashState.initial 0x1000 0x1FFF 0x1500 rfl).1,
   (C1_check_after_write_protect FlashState.initial 0x1000 0x1FFF 0x1500 rfl).2.2
     (by decide),
   (C1_check_after_write_protect FlashState.initial 0x1000 0x1FFF 0x3000 rfl).2.1
     (by decide)⟩

/-- C2: when protection is active and `addr` lies in the protected range,
`flash_impl_erase_sector_begin` and `flash_impl_erase_subsector_begin` return
`E_INVALID_OPERATION` and leave the state, engine log included, as it was;
otherwise each appends exactly one `erase_begin` call with that `addr` and its
own `is_subsector` flag and returns the engine's result for that call. -/
theorem C2_erase_begin (eng : Engine) (s : FlashState) (addr : Nat) :
    ((s.s_protected = true ∧ s.s_protected_start ≤ addr ∧ addr ≤ s.s_protected_end) →
      flash_impl_erase_sector_begin eng s addr = (E_INVALID_OPERATION, s) ∧
      flash_impl_erase_subsector_begin eng s addr = (E_INVALID_OPERATION, s)) ∧
    (¬ (s.s_protected = true ∧ s.s_protected_start ≤ addr ∧ addr ≤ s.s_protected_end) →
      flash_impl_erase_sector_begin eng s addr =
        (eng s.calls (.erase_begin addr false),
          { s with calls := s.calls ++ [.erase_begin addr false] }) ∧
      flash_impl_erase_subsector_begin eng s addr =
        (eng s.calls (.erase_begin addr true),
          { s with calls := s.calls ++ [.erase_begin addr true] })) := by
  constructor
  · rintro ⟨hp, hlo, hhi⟩
    have hc := check_protected_inside s addr hp hlo hhi
    simp [flash_impl_erase_sector_begin, flash_impl_erase_subsector_begin, hc,
      failed_invalid_operation]
  · intro hn
    have hc : prv_flash_check_protected s addr = S_SUCCESS := by
      apply check_protected_outside
      by_cases hp : s.s_protected = true
      · right
        by_contra hcon
        exact hn ⟨hp, by omega, by omega⟩
      · left
        simpa using hp
    simp [flash_impl_erase_sector_begin, flash_impl_erase_subsector_begin, hc,
      not_failed_success, FlashState.call]

/-- Witness for C2: with 0x1000..0x1FFF protected, `erase_sector_begin 0x1500`
returns `E_INVALID_OPERATION` without an engine call and
`erase_sector_begin 0x3000` makes one `erase_begin 0x3000 false` call. -/
theorem C2_erase_begin_witness :
    flash_impl_erase_sector_begin idleEngine protected_1000_1FFF 0x1500
      = (E_INVALID_OPERATION, protected_1000_1FFF) ∧
    flash_impl_erase_sector_begin idleEngine protected_1000_1FFF 0x3000
      = (idleEngine [] (.erase_begin 0x3000 false),
          { protected_1000_1FFF with calls := [.erase_begin 0x3000 false] }) :=
  ⟨((C2_erase_begin idleEngine protected_1000_1FFF 0x1500).1 (by decide)).1,
   ((C2_erase_begin idleEngine protected_1000_1FFF 0x3000).2 (by decide)).1⟩

/-- C3: `flash_impl_write_protect` on a state with an active range fails and
returns the state unchanged; `flash_impl_unprotect` on a state with no active
range fails and returns the state unchanged; and of two `write_protect` calls
in a row the second fails and changes nothing. -/
theorem C3_rejected_calls_keep_state (s : FlashState) (a b c d : Nat) :
    (s.s_protected = true →
      FAILED (flash_impl_write_protect s a b).1 = true ∧
      (flash_impl_write_protect s a b).2 = s) ∧
    (s.s_protected = false →
      FAILED (flash_impl_unprotect s).1 = true ∧ (flash_impl_unprotect s).2 = s) ∧
    FAILED (flash_impl_write_protect (flash_impl_write_protect s a b).2 c d).1 = true ∧
    (flash_impl_write_protect (flash_impl_write_protect s a b).2 c d).2
      = (flash_impl_write_protect s a b).2 := by
  have key : ∀ t : FlashState, t.s_protected = true → ∀ x y : Nat,
      FAILED (flash_impl_write_protect t x y).1 = true ∧
      (flash_impl_write_protect t x y).2 = t := by
    intro t ht x y
    simp [flash_impl_write_protect, ht, failed_error]
  have hafter : (flash_impl_write_protect s a b).2.s_protected = true := by
    unfold flash_impl_write_protect
    by_cases hp : s.s_protected = true
    · simp [hp]
    · simp [hp]
  refine ⟨fun hp => key s hp a b, ?_, key _ hafter c d⟩
  intro hp
  simp [flash_impl_unprotect, hp, failed_error]

/-- Witness for C3: the protected state 0x1000..0x1FFF rejects a second
`write_protect`, and the start-up state rejects `unprotect`. -/
theorem C3_rejected_calls_keep_state_witness :
    (FAILED (flash_impl_write_protect protected_1000_1FFF 0x4000 0x4FFF).1 = true ∧
      (flash_impl_write_protect protected_1000_1FFF 0x4000 0x4FFF).2 = protected_1000_1FFF) ∧
    (FAILED (flash_impl_unprotect FlashState.initial).1 = true ∧
      (flash_impl_unprotect FlashState.initial).2 = FlashState.initial) :=
  ⟨(C3_rejected_calls_keep_state protected_1000_1FFF 0x4000 0x4FFF 0 0).1 rfl,
   (C3_rejected_calls_keep_state FlashState.initial 0 0 0 0).2.1 rfl⟩

/-- C5: for every address and every value of the two mask constants,
`flash_impl_get_sector_base_address` and `flash_impl_get_subsector_base_address`
are idempotent and never exceed their argument. -/
theorem C5_base_address_idempotent_le (SECTOR_ADDR_MASK SUBSECTOR_ADDR_MASK a : Nat) :
    flash_impl_get_sector_base_address SECTOR_ADDR_MASK
        (flash_impl_get_sector_base_address SECTOR_ADDR_MASK a)
      = flash_impl_get_sector_base_address SECTOR_ADDR_MASK a ∧
    flash_impl_get_sector_base_address SECTOR_ADDR_MASK a ≤ a ∧
    flash_impl_get_subsector_base_address SUBSECTOR_ADDR_MASK
        (flash_impl_get_subsector_base_address SUBSECTOR_ADDR_MASK a)
      = flash_impl_get_subsector_base_address SUBSECTOR_ADDR_MASK a ∧
    flash_impl_get_subsector_base_address SUBSECTOR_ADDR_MASK a ≤ a := by
  unfold flash_impl_get_sector_base_address flash_impl_get_subsector_base_address
  refine ⟨?_, Nat.and_le_left, ?_, Nat.and_le_left⟩
  · rw [Nat.land_assoc, Nat.and_self]
  · rw [Nat.land_assoc, Nat.and_self]

/-- A guarded engine call (erase or page write) leaves the three protection
fields as they were, whichever branch is taken. -/
theorem guarded_call_protected (eng : Engine) (s : FlashState) (st : status_t)
    (c : EngineCall) :
    (if FAILED st = true then (st, s) else s.call eng c).2.s_protected = s.s_protected ∧
    (if FAILED st = true then (st, s) else s.call eng c).2.s_protected_start
      = s.s_protected_start ∧
    (if FAILED st = true then (st, s) else s.call eng c).2.s_protected_end
      = s.s_protected_end := by
  by_cases h : FAILED st = true
  · simp [h]
  · simp [h, FlashState.call]

theorem rangeOrdered_of_fields {s t : FlashState}
    (h : t.s_protected = s.s_protected ∧ t.s_protected_start = s.s_protected_start ∧
      t.s_protected_end = s.s_protected_end) (hs : RangeOrdered s) : RangeOrdered t := by
  intro hp
  rw [h.2.1, h.2.2]
  exact hs (by rw [← h.1]; exact hp)

/-- One well-ranged operation keeps the range ordered. -/
theorem step_rangeOrdered (eng : Engine) (s s' : FlashState) (op : Op)
    (hop : op.wellRanged = true) (hs : RangeOrdered s) (hstep : step eng s op = some s') :
    RangeOrdered s' := by
  cases op
  case write_protect a b =>
    simp only [step, Option.some.injEq] at hstep
    subst hstep
    have hab : a ≤ b := by simpa [Op.wellRanged] using hop
    unfold flash_impl_write_protect
    by_cases hp : s.s_protected = true
    · simpa [hp] using hs
    · intro _
      simpa [hp] using hab
  case unprotect =>
    simp only [step, Option.some.injEq] at hstep
    subst hstep
    unfold flash_impl_unprotect
    by_cases hp : s.s_protected = true
    · intro h
      simp [hp] at h
    · simpa [hp] using hs
  case read_sync b a n =>
    simp only [step, flash_impl_read_sync] at hstep
    by_cases hn : n > 0
    · simp only [hn, if_true, Option.some.injEq] at hstep
      subst hstep
      exact rangeOrdered_of_fields (call_snd_protected eng s _) hs
    · simp [hn] at hstep
  case erase_subsector_begin a =>
    simp only [step, Option.some.injEq] at hstep
    subst hstep
    exact rangeOrdered_of_fields (guarded_call_protected eng s _ _) hs
  case erase_sector_begin a =>
    simp only [step, Option.some.injEq] at hstep
    subst hstep
    exact rangeOrdered_of_fields (guarded_call_protected eng s _ _) hs
  case write_page_begin b a n =>
    simp only [step, Option.some.injEq] at hstep
    subst hstep
    exact rangeOrdered_of_fields (guarded_call_protected eng s _ _) hs
  all_goals
    simp only [step, Option.some.injEq] at hstep
    subst hstep
    exact hs

/-- A run of well-ranged operations keeps the range ordered. -/
theorem run_rangeOrdered (eng : Engine) (ops : List Op) :
    ∀ s s' : FlashState, (∀ op ∈ ops, Op.wellRanged op = true) → RangeOrdered s →
      run eng s ops = some s' → RangeOrdered s' := by
  induction ops with
  | nil =>
    intro s s' _ hs hrun
    simp only [run, Option.some.injEq] at hrun
    subst hrun
    exact hs
  | cons op rest ih =>
    intro s s' hops hs hrun
    simp only [run] at hrun
    cases hst : step eng s op with
    | none => simp [hst] at hrun
    | some s1 =>
      simp only [hst] at hrun
      exact ih s1 s' (fun o ho => hops o (List.mem_cons_of_mem _ ho))
        (step_rangeOrdered eng s s1 op (hops op (List.mem_cons_self _ _)) hs hst) hrun

/-- C4 as stated fails: the single operation `write_protect 5 3` leads from the
start-up state to a state with `s_protected` set, start 5 and end 3. -/
theorem C4_counterexample :
    run idleEngine FlashState.initial [Op.write_protect 5 3] = some protected_5_3 ∧
    Reachable idleEngine protected_5_3 ∧
    protected_5_3.s_protected = true ∧
    ¬ protected_5_3.s_protected_start ≤ protected_5_3.s_protected_end :=
  ⟨rfl, ⟨[Op.write_protect 5 3], rfl⟩, rfl, by decide⟩

/-- C4 (amended): in every state reached from the start-up state by a sequence
of driver operations in which each `write_protect` is given `start ≤ end`, an
active range has `s_protected_start ≤ s_protected_end`. -/
theorem C4_range_ordered_when_calls_ordered (eng : Engine) (ops : List Op) (s : FlashState)
    (hops : ∀ op ∈ ops, Op.wellRanged op = true)
    (hrun : run eng FlashState.initial ops = some s)
    (hp : s.s_protected = true) :
    s.s_protected_start ≤ s.s_protected_end :=
  run_rangeOrdered eng ops FlashState.initial s hops (fun h => by simp [FlashState.initial] at h)
    hrun hp

/-- Witness for the amended C4: protect 0x1000..0x1FFF, read inside the range,
then erase outside it. -/
theorem C4_range_ordered_when_calls_ordered_witness :
    (∀ op ∈ protect_read_erase, Op.wellRanged op = true) ∧
    run idleEngine FlashState.initial protect_read_erase = some after_protect_read_erase ∧
    after_protect_read_erase.s_protected = true ∧
    after_protect_read_erase.s_protected_start ≤ after_protect_read_erase.s_protected_end :=
  ⟨by decide, rfl, rfl,
    C4_range_ordered_when_calls_ordered idleEngine protect_read_erase after_protect_read_erase
      (by decide) rfl rfl⟩

/-- C6: `flash_impl_read_sync` with `buffer_size = 0` stops at the assertion
with the state, engine log included, as it was; with `buffer_size > 0` it
appends exactly one `read_blocking` call with that address, buffer and size and
returns `S_SUCCESS`. -/
theorem C6_read_sync_zero_length_asserts (eng : Engine) (s : FlashState)
    (buffer_ptr start_addr buffer_size : Nat) :
    flash_impl_read_sync eng s buffer_ptr start_addr 0 = Outcome.assert_failed s ∧
    (0 < buffer_size →
      flash_impl_read_sync eng s buffer_ptr start_addr buffer_size =
        Outcome.returned S_SUCCESS
          { s with calls := s.calls ++ [.read_blocking start_addr buffer_ptr buffer_size] }) := by
  constructor
  · simp [flash_impl_read_sync]
  · intro h
    simp [flash_impl_read_sync, h, FlashState.call]

/-- Witness for C6: a four-byte read at 0x1500 from the start-up state. -/
theorem C6_read_sync_zero_length_asserts_witness :
    flash_impl_read_sync idleEngine FlashState.initial 0 0x1500 0
      = Outcome.assert_failed FlashState.initial ∧
    flash_impl_read_sync idleEngine FlashState.initial 0 0x1500 4 =
      Outcome.returned S_SUCCESS
        { FlashState.initial with calls := [.read_blocking 0x1500 0 4] } :=
  ⟨(C6_read_sync_zero_length_asserts idleEngine FlashState.initial 0 0x1500 4).1,
   (C6_read_sync_zero_length_asserts idleEngine FlashState.initial 0 0x1500 4).2 (by decide)⟩

/-- C7 as stated fails: `write_protect` on a protected state and `unprotect` on
the start-up state both return `E_ERROR`, which is not `E_INVALID_OPERATION`. -/
theorem C7_counterexample :
    (flash_impl_write_protect protected_1000_1FFF 0x4000 0x4FFF).1 = E_ERROR ∧
    (flash_impl_unprotect FlashState.initial).1 = E_ERROR ∧
    (flash_impl_write_protect protected_1000_1FFF 0x4000 0x4FFF).1 ≠ E_INVALID_OPERATION ∧
    (flash_impl_unprotect FlashState.initial).1 ≠ E_INVALID_OPERATION := by
  decide

/-- C7 (amended): `flash_impl_write_protect` with a range already active and
`flash_impl_unprotect` with no range active return the generic failure code
`E_ERROR`; a protected-region violation returns `E_INVALID_OPERATION`, and the
two codes differ. -/
theorem C7_misuse_returns_generic_error (s : FlashState) (a b addr : Nat) :
    (s.s_protected = true → (flash_impl_write_protect s a b).1 = E_ERROR) ∧
    (s.s_protected = false → (flash_impl_unprotect s).1 = E_ERROR) ∧
    ((s.s_protected = true ∧ s.s_protected_start ≤ addr ∧ addr ≤ s.s_protected_end) →
      prv_flash_check_protected s addr = E_INVALID_OPERATION) ∧
    E_ERROR ≠ E_INVALID_OPERATION := by
  refine ⟨?_, ?_, ?_, by decide⟩
  · intro hp
    simp [flash_impl_write_protect, hp]
  · intro hp
    simp [flash_impl_unprotect, hp]
  · rintro ⟨hp, hlo, hhi⟩
    exact check_protected_inside s addr hp hlo hhi

/-- Witness for the amended C7 on the protected state 0x1000..0x1FFF and on the
start-up state. -/
theorem C7_misuse_returns_generic_error_witness :
    (flash_impl_write_protect protected_1000_1FFF 0x4000 0x4FFF).1 = E_ERROR ∧
    (flash_impl_unprotect FlashState.initial).1 = E_ERROR ∧
    prv_flash_check_protected protected_1000_1FFF 0x1500 = E_INVALID_OPERATION :=
  ⟨(C7_misuse_returns_generic_error protected_1000_1FFF 0x4000 0x4FFF 0x1500).1 rfl,
   (C7_misuse_returns_generic_error FlashState.initial 0 0 0).2.1 rfl,
   (C7_misuse_returns_generic_error protected_1000_1FFF 0x4000 0x4FFF 0x1500).2.2.1
     (by decide)⟩

/-- C8: from any state, after `write_protect start end` the following
`unprotect` succeeds and then `prv_flash_check_protected` returns `S_SUCCESS`
for every address; a following `write_protect start2 end2` succeeds and then
`prv_flash_check_protected a` returns `E_INVALID_OPERATION` when
`start2 ≤ a ≤ end2` and `S_SUCCESS` otherwise, whatever `start` and `end` were. -/
theorem C8_protection_changes_seen_at_once (s : FlashState)
    (start_sector end_sector start2 end2 : Nat) :
    (flash_impl_unprotect (flash_impl_write_protect s start_sector end_sector).2).1
      = S_SUCCESS ∧
    (∀ a : Nat,
      prv_flash_check_protected
        (flash_impl_unprotect (flash_impl_write_protect s start_sector end_sector).2).2 a
        = S_SUCCESS) ∧
    (flash_impl_write_protect
      (flash_impl_unprotect (flash_impl_write_protect s start_sector end_sector).2).2
      start2 end2).1 = S_SUCCESS ∧
    (∀ a : Nat,
      prv_flash_check_protected
        (flash_impl_write_protect
          (flash_impl_unprotect (flash_impl_write_protect s start_sector end_sector).2).2
          start2 end2).2 a
        = if start2 ≤ a ∧ a ≤ end2 then E_INVALID_OPERATION else S_SUCCESS) ∧
    (∀ a : Nat,
      FAILED (prv_flash_check_protected
        (flash_impl_write_protect
          (flash_impl_unprotect (flash_impl_write_protect s start_sector end_sector).2).2
          start2 end2).2 a) = true ↔ (start2 ≤ a ∧ a ≤ end2)) := by
  have hafter : (flash_impl_write_protect s start_sector end_sector).2.s_protected = true := by
    unfold flash_impl_write_protect
    by_cases hp : s.s_protected = true
    · simp [hp]
    · simp [hp]
  generalize (flash_impl_write_protect s start_sector end_sector).2 = s1 at hafter
  have hun : flash_impl_unprotect s1 = (S_SUCCESS, { s1 with s_protected := false }) := by
    simp [flash_impl_unprotect, hafter]
  rw [hun]
  have hw : flash_impl_write_protect { s1 with s_protected := false } start2 end2 =
      (S_SUCCESS, { s1 with s_protected_start := start2, s_protected_end := end2,
                            s_protected := true }) := by
    simp [flash_impl_write_protect]
  rw [hw]
  have hchk : ∀ a : Nat,
      prv_flash_check_protected
        { s1 with s_protected_start := start2, s_protected_end := end2, s_protected := true } a
        = if start2 ≤ a ∧ a ≤ end2 then E_INVALID_OPERATION else S_SUCCESS := by
    intro a
    by_cases hin : start2 ≤ a ∧ a ≤ end2
    · rw [if_pos hin]
      exact check_protected_inside _ _ rfl hin.1 hin.2
    · rw [if_neg hin]
      apply check_protected_outside
      right
      show a < start2 ∨ a > end2
      omega
  refine ⟨rfl, ?_, rfl, hchk, ?_⟩
  · intro a
    exact check_protected_outside _ _ (Or.inl rfl)
  · intro a
    rw [hchk a]
    by_cases hin : start2 ≤ a ∧ a ≤ end2
    · simp [hin, failed_invalid_operation]
    · simp only [if_neg hin, not_failed_success]
      simp [hin]

/-- C9: for every state, every address and every `buffer_size > 0`,
`flash_impl_read_sync` returns `S_SUCCESS` after one `read_blocking` call and
leaves `s_protected`, `s_protected_start` and `s_protected_end` unchanged; the
address may lie inside the protected range. -/
theorem C9_read_never_blocked (eng : Engine) (s : FlashState)
    (buffer_ptr start_addr buffer_size : Nat) (h : 0 < buffer_size) :
    ∃ s' : FlashState,
      flash_impl_read_sync eng s buffer_ptr start_addr buffer_size
        = Outcome.returned S_SUCCESS s' ∧
      s'.calls = s.calls ++ [.read_blocking start_addr buffer_ptr buffer_size] ∧
      s'.s_protected = s.s_protected ∧
      s'.s_protected_start = s.s_protected_start ∧
      s'.s_protected_end = s.s_protected_end := by
  refine ⟨(s.call eng (.read_blocking start_addr buffer_ptr buffer_size)).2, ?_, ?_, ?_⟩
  · simp [flash_impl_read_sync, h]
  · simp [FlashState.call]
  · exact call_snd_protected eng s _

/-- Witness for C9: a four-byte read at 0x1500 while 0x1000..0x1FFF is
protected. -/
theorem C9_read_never_blocked_witness :
    0 < 4 ∧
    ∃ s' : FlashState,
      flash_impl_read_sync idleEngine protected_1000_1FFF 0 0x1500 4
        = Outcome.returned S_SUCCESS s' ∧
      s'.calls = protected_1000_1FFF.calls ++ [.read_blocking 0x1500 0 4] ∧
      s'.s_protected = protected_1000_1FFF.s_protected ∧
      s'.s_protected_start = protected_1000_1FFF.s_protected_start ∧
      s'.s_protected_end = protected_1000_1FFF.s_protected_end :=
  ⟨by decide, C9_read_never_blocked idleEngine protected_1000_1FFF 0 0x1500 4 (by decide)⟩

/-- C10 as stated fails: with 0x1000..0x1FFF protected, a 0x20-byte page write
at 0x0FF0 covers the protected byte 0x1000, yet it is passed to the engine and
returns the engine's result. -/
theorem C10_counterexample :
    protected_1000_1FFF.s_protected = true ∧
    0 < 0x20 ∧
    (0x0FF0 ≤ 0x1000 ∧ 0x1000 ≤ 0x0FF0 + 0x20 - 1) ∧
    (protected_1000_1FFF.s_protected_start ≤ 0x1000 ∧
      0x1000 ≤ protected_1000_1FFF.s_protected_end) ∧
    flash_impl_write_page_begin idleEngine protected_1000_1FFF 0 0x0FF0 0x20
      = (S_SUCCESS,
          { protected_1000_1FFF with calls := [.write_page_begin 0 0x0FF0 0x20] }) ∧
    (flash_impl_write_page_begin idleEngine protected_1000_1FFF 0 0x0FF0 0x20).1
      ≠ E_INVALID_OPERATION := by
  decide

/-- C10 (amended): while a range is protected, every page write whose
`start_addr` lies in the range is refused: `flash_impl_write_page_begin` returns
`E_INVALID_OPERATION` and leaves the state, engine log included, as it was. -/
theorem C10_write_page_refused_at_protected_start (eng : Engine) (s : FlashState)
    (buffer start_addr len : Nat)
    (hp : s.s_protected = true) (hlo : s.s_protected_start ≤ start_addr)
    (hhi : start_addr ≤ s.s_protected_end) :
    flash_impl_write_page_begin eng s buffer start_addr len = (E_INVALID_OPERATION, s) := by
  have hc := check_protected_inside s start_addr hp hlo hhi
  simp [flash_impl_write_page_begin, hc, failed_invalid_operation]

/-- Witness for the amended C10: a page write at 0x1500 while 0x1000..0x1FFF is
protected. -/
theorem C10_write_page_refused_at_protected_start_witness :
    (protected_1000_1FFF.s_protected = true ∧
      protected_1000_1FFF.s_protected_start ≤ 0x1500 ∧
      0x1500 ≤ protected_1000_1FFF.s_protected_end) ∧
    flash_impl_write_page_begin idleEngine protected_1000_1FFF 0 0x1500 0x20
      = (E_INVALID_OPERATION, protected_1000_1FFF) :=
  ⟨by decide,
   C10_write_page_refused_at_protected_start idleEngine protected_1000_1FFF 0 0x1500 0x20
     rfl (by decide) (by decide)⟩

end GD25LQ255E
